import Mathlib

/-!
Verification of the Score-check credit dashboard (`src/scoreCheck.py`).

The dashboard converts five 0-100 integer slider ratings into a synthetic
FICO-style score via a fixed weighted formula, classifies it, emits
rule-based recommendations and a narrative paragraph, and keeps an
append-only in-session history.  The arithmetic of the source is embedded
over `ℚ` (exact rational semantics of the source expressions); Python's
`round` (round-half-to-even) is embedded as `pyRound`.
-/

namespace ScoreCheck

/-- Rounding to the nearest integer, ties to even: the semantics of
Python's built-in `round` applied to the exact value of the expression. -/
def pyRound (q : ℚ) : ℤ :=
  if q - ⌊q⌋ < 1/2 then ⌊q⌋
  else if 1/2 < q - ⌊q⌋ then ⌊q⌋ + 1
  else if ⌊q⌋ % 2 = 0 then ⌊q⌋ else ⌊q⌋ + 1

/-- The five slider inputs (`scoreCheck.py` lines 22-26), each an integer
constrained by the slider control to [0, 100]. -/
structure CreditFactors where
  payment_history : ℕ
  credit_utilization : ℕ
  length_credit_history : ℕ
  credit_mix : ℕ
  new_credit : ℕ
  deriving DecidableEq, Repr

/-- The slider range constraint: each factor lies in [0, 100]
(the lower bound is inherent in `ℕ`). -/
def InRange (f : CreditFactors) : Prop :=
  f.payment_history ≤ 100 ∧ f.credit_utilization ≤ 100 ∧
  f.length_credit_history ≤ 100 ∧ f.credit_mix ≤ 100 ∧ f.new_credit ≤ 100

instance (f : CreditFactors) : Decidable (InRange f) := by
  unfold InRange; infer_instance

/-- `weighted_score` (lines 29-35): the normalized weighted sum of the
five factors. -/
def weighted_score (f : CreditFactors) : ℚ :=
  ((f.payment_history : ℚ) / 100) * 0.35 +
  ((f.credit_utilization : ℚ) / 100) * 0.30 +
  ((f.length_credit_history : ℚ) / 100) * 0.15 +
  ((f.credit_mix : ℚ) / 100) * 0.10 +
  ((f.new_credit : ℚ) / 100) * 0.10

/-- `fico_score` (line 37): `round(300 + weighted_score * 550)`. -/
def fico_score (f : CreditFactors) : ℤ :=
  pyRound (300 + weighted_score f * 550)

/-- The category label assigned by the `if`/`elif` chain at lines 40-54. -/
def category (s : ℤ) : String :=
  if s < 580 then "❌ Poor"
  else if 580 ≤ s ∧ s < 670 then "⚠️ Fair"
  else if 670 ≤ s ∧ s < 740 then "✅ Good"
  else if 740 ≤ s ∧ s < 800 then "💎 Very Good"
  else "🏆 Excellent"

/-- The color hint assigned alongside the category (lines 40-54). -/
def color (s : ℤ) : String :=
  if s < 580 then "red"
  else if 580 ≤ s ∧ s < 670 then "orange"
  else if 670 ≤ s ∧ s < 740 then "green"
  else if 740 ≤ s ∧ s < 800 then "blue"
  else "purple"

/-! ### Executable integer characterization of the score

`300 + weighted_score f * 550` equals `(60000 + 385 p + 330 u + 165 l +
110 m + 110 n) / 200` exactly, so the score can be computed in integer
arithmetic.  This bridge makes concrete evaluations kernel-decidable. -/

/-- Numerator of the exact score over the common denominator 200:
`300 + weighted_score f * 550 = scoreNumerator f / 200`. -/
def scoreNumerator (f : CreditFactors) : ℕ :=
  60000 + 385 * f.payment_history + 330 * f.credit_utilization +
    165 * f.length_credit_history + 110 * f.credit_mix + 110 * f.new_credit

/-- Round-half-to-even of `a / 200` in natural-number arithmetic. -/
def natRound200 (a : ℕ) : ℕ :=
  if a % 200 < 100 then a / 200
  else if 100 < a % 200 then a / 200 + 1
  else if (a / 200) % 2 = 0 then a / 200
  else a / 200 + 1

/-- `fico_score` computed entirely in natural-number arithmetic. -/
def fico_score_nat (f : CreditFactors) : ℕ :=
  natRound200 (scoreNumerator f)

lemma natRound200_mono {a b : ℕ} (h : a ≤ b) : natRound200 a ≤ natRound200 b := by
  unfold natRound200
  split_ifs <;> omega

lemma natRound200_lb {a : ℕ} (h : 60000 ≤ a) : 300 ≤ natRound200 a := by
  unfold natRound200
  split_ifs <;> omega

lemma natRound200_ub {a : ℕ} (h : a ≤ 170000) : natRound200 a ≤ 850 := by
  unfold natRound200
  split_ifs <;> omega

lemma pyRound_natCast_div (a : ℕ) :
    pyRound ((a : ℚ) / 200) = ((natRound200 a : ℕ) : ℤ) := by
  have hfloor : ⌊(a : ℚ) / 200⌋ = ((a / 200 : ℕ) : ℤ) := by
    have h1 : ((a : ℤ) : ℚ) / ((200 : ℕ) : ℚ) = (a : ℚ) / 200 := by push_cast; ring
    rw [← h1, Rat.floor_intCast_div_natCast]
    omega
  have hdm := Nat.div_add_mod a 200
  have hcast : (200 : ℚ) * ((a / 200 : ℕ) : ℚ) + ((a % 200 : ℕ) : ℚ) = (a : ℚ) := by
    exact_mod_cast congrArg (fun n : ℕ => (n : ℚ)) hdm
  have hsub : (a : ℚ) / 200 - (⌊(a : ℚ) / 200⌋ : ℚ) = ((a % 200 : ℕ) : ℚ) / 200 := by
    rw [hfloor]
    have hcc : (((a / 200 : ℕ) : ℤ) : ℚ) = ((a / 200 : ℕ) : ℚ) := by norm_cast
    rw [hcc]
    linarith
  have hlt : (a : ℚ) / 200 - (⌊(a : ℚ) / 200⌋ : ℚ) < 1 / 2 ↔ a % 200 < 100 := by
    rw [hsub, div_lt_iff₀ (by norm_num : (0 : ℚ) < 200)]
    norm_num
  have hgt : 1 / 2 < (a : ℚ) / 200 - (⌊(a : ℚ) / 200⌋ : ℚ) ↔ 100 < a % 200 := by
    rw [hsub, lt_div_iff₀ (by norm_num : (0 : ℚ) < 200)]
    norm_num
  have hpar : ⌊(a : ℚ) / 200⌋ % 2 = 0 ↔ (a / 200) % 2 = 0 := by
    rw [hfloor]; omega
  unfold pyRound natRound200
  simp only [hlt, hgt, hpar]
  split_ifs <;> rw [hfloor] <;> push_cast <;> ring

/-- The source score expression equals the integer-arithmetic version. -/
lemma fico_score_eq_nat (f : CreditFactors) :
    fico_score f = (fico_score_nat f : ℤ) := by
  have harg : 300 + weighted_score f * 550 = ((scoreNumerator f : ℕ) : ℚ) / 200 := by
    unfold weighted_score scoreNumerator
    push_cast
    ring
  unfold fico_score fico_score_nat
  rw [harg, pyRound_natCast_div]

example : fico_score ⟨85, 70, 65, 75, 60⟩ = 707 := by
  rw [fico_score_eq_nat]; decide
example : fico_score ⟨0, 0, 0, 0, 0⟩ = 300 := by
  rw [fico_score_eq_nat]; decide
example : fico_score ⟨100, 100, 100, 100, 100⟩ = 850 := by
  rw [fico_score_eq_nat]; decide
example : category 707 = "✅ Good" := by decide

/-! ### Recommendations (lines 90-106) -/

def recMsgPayment : String :=
  "✅ Improve **payment history** by making all payments on time."
def recMsgUtilization : String :=
  "📉 Reduce **credit utilization** below 30% of available credit."
def recMsgLength : String :=
  "🕒 Keep older credit accounts open to build **longer history**."
def recMsgMix : String :=
  "💳 Add different credit types (e.g., installment + revolving)."
def recMsgNewCredit : String :=
  "🧾 Limit **new credit applications**; too many inquiries can lower your score."
def recMsgFallback : String :=
  "🌟 Excellent! Your credit profile looks balanced and strong."

/-- The list built by the five conditional appends at lines 90-100. -/
def recommendations (f : CreditFactors) : List String :=
  (if f.payment_history < 80 then [recMsgPayment] else []) ++
  (if f.credit_utilization > 30 then [recMsgUtilization] else []) ++
  (if f.length_credit_history < 70 then [recMsgLength] else []) ++
  (if f.credit_mix < 60 then [recMsgMix] else []) ++
  (if f.new_credit < 60 then [recMsgNewCredit] else [])

/-- What is actually shown (lines 102-106): the fallback success message
when the list is empty, else the list itself in order. -/
def displayedRecommendations (f : CreditFactors) : List String :=
  if recommendations f = [] then [recMsgFallback] else recommendations f

/-- The five recommendation rules as (fired?, message) pairs in the fixed
source order; stated in the form of the specification (section 4.3). -/
def recRules (f : CreditFactors) : List (Bool × String) :=
  [(decide (f.payment_history < 80), recMsgPayment),
   (decide (f.credit_utilization > 30), recMsgUtilization),
   (decide (f.length_credit_history < 70), recMsgLength),
   (decide (f.credit_mix < 60), recMsgMix),
   (decide (f.new_credit < 60), recMsgNewCredit)]

/-- The subset of rule messages whose conditions hold, in rule order. -/
def firedMessages (f : CreditFactors) : List String :=
  (recRules f).filterMap (fun r => if r.1 = true then some r.2 else none)

/-! ### Narrative analysis (lines 152-174) -/

def tierMsgExceptional : String :=
  "Your credit profile is **exceptional**, reflecting strong payment consistency and responsible borrowing habits."
def tierMsgVeryGood : String :=
  "You have a **very good credit profile**. Continue maintaining low credit utilization and a long credit history."
def tierMsgGood : String :=
  "Your credit is in the **good range** — improving payment history or reducing utilization could elevate it further."
def tierMsgFair : String :=
  "Your credit is **fair**. Focus on consistent on-time payments and lowering your debt ratio to move upward."
def tierMsgPoor : String :=
  "Your score is **poor**, indicating several risk factors. Immediate focus on timely payments and reducing debt will help most."
def condMsgUtilization : String :=
  "Your **credit utilization is high**, which may signal over-reliance on credit — aim for below 30%."
def condMsgPayment : String :=
  "Your **payment history** shows missed or late payments — prioritize consistency to gain major improvements."
def condMsgLength : String :=
  "A **short credit history** limits your score. Keeping older accounts active can help."
def condMsgNewCredit : String :=
  "Opening new accounts responsibly shows growth, but too many at once may slightly lower your score temporarily."

/-- The `analysis` list built at lines 152-172: one score-tier sentence
from the `if`/`elif` chain, then the four conditional sentences. -/
def analysis (f : CreditFactors) : List String :=
  (if fico_score f ≥ 800 then [tierMsgExceptional]
   else if fico_score f ≥ 740 then [tierMsgVeryGood]
   else if fico_score f ≥ 670 then [tierMsgGood]
   else if fico_score f ≥ 580 then [tierMsgFair]
   else [tierMsgPoor]) ++
  (if f.credit_utilization > 50 then [condMsgUtilization] else []) ++
  (if f.payment_history < 70 then [condMsgPayment] else []) ++
  (if f.length_credit_history < 50 then [condMsgLength] else []) ++
  (if f.new_credit > 80 then [condMsgNewCredit] else [])

/-- The paragraph written at line 174: `" ".join(analysis)`. -/
def analysisParagraph (f : CreditFactors) : String :=
  String.intercalate " " (analysis f)

/-- The score-tier sentence as the specification words it: selected by the
thresholds 800, 740, 670, 580 on the computed score. -/
def tierSentence (s : ℤ) : String :=
  if s ≥ 800 then tierMsgExceptional
  else if s ≥ 740 then tierMsgVeryGood
  else if s ≥ 670 then tierMsgGood
  else if s ≥ 580 then tierMsgFair
  else tierMsgPoor

/-- The conditional narrative sentences as the specification words them:
each included exactly when its condition holds, in the fixed order. -/
def condSentences (f : CreditFactors) : List String :=
  List.filterMap (fun r : Bool × String => if r.1 = true then some r.2 else none)
    [(decide (f.credit_utilization > 50), condMsgUtilization),
     (decide (f.payment_history < 70), condMsgPayment),
     (decide (f.length_credit_history < 50), condMsgLength),
     (decide (f.new_credit > 80), condMsgNewCredit)]

/-! ### Session history (lines 112-128) -/

/-- One saved snapshot: the dict appended at lines 116-124. -/
structure HistoryEntry where
  score : ℤ
  categoryLabel : String
  payment_history : ℕ
  credit_utilization : ℕ
  length_credit_history : ℕ
  credit_mix : ℕ
  new_credit : ℕ
  deriving DecidableEq, Repr

/-- The entry recorded for the factors active at the moment of a save. -/
def mkEntry (f : CreditFactors) : HistoryEntry :=
  { score := fico_score f
    categoryLabel := category (fico_score f)
    payment_history := f.payment_history
    credit_utilization := f.credit_utilization
    length_credit_history := f.length_credit_history
    credit_mix := f.credit_mix
    new_credit := f.new_credit }

/-- One press of the save button (lines 115-124): `list.append` puts the
current snapshot at the end of `st.session_state.score_history`. -/
def saveSimulation (h : List HistoryEntry) (f : CreditFactors) : List HistoryEntry :=
  h ++ [mkEntry f]

/-- A session that performs one save per element of `fs`, in order,
starting from the empty history (line 113). -/
def saveAll (fs : List CreditFactors) : List HistoryEntry :=
  fs.foldl saveSimulation []

/-- Reading the history for display (lines 126-128) only constructs a
dataframe from it; the sequence itself is returned unchanged. -/
def readHistory (h : List HistoryEntry) : List HistoryEntry := h

/-! ### Forecast (spec section 4.5; absent from `src/scoreCheck.py`) -/

/-- Predicted per-factor values: rationals after jitter and clamping. -/
structure PredictionInput where
  payment_history : ℚ
  credit_utilization : ℚ
  length_credit_history : ℚ
  credit_mix : ℚ
  new_credit : ℚ

/-- Clamp a predicted factor value into [0, 100]. -/
def clampFactor (x : ℚ) : ℚ := max 0 (min 100 x)

/-- The weighted-sum formula of section 4.1 applied to predicted factors. -/
def weighted_scoreQ (f : PredictionInput) : ℚ :=
  (f.payment_history / 100) * 0.35 +
  (f.credit_utilization / 100) * 0.30 +
  (f.length_credit_history / 100) * 0.15 +
  (f.credit_mix / 100) * 0.10 +
  (f.new_credit / 100) * 0.10

/-- The rounded score of section 4.1 applied to predicted factors. -/
def fico_scoreQ (f : PredictionInput) : ℤ :=
  pyRound (300 + weighted_scoreQ f * 550)

/-- Modelled from the spec: the forecast of section 4.5 is not present in
`src/scoreCheck.py` (only the non-forecast variant is), so it is taken
from the specification text.  Given the current factors, a month horizon,
an improvement rate and the shared random offset `eps` drawn from
[-2, 2], each factor becomes `factor + rate * multiplier + eps` with
multipliers 0.8, 0.5 (applied as a subtraction for utilization), 0.3,
0.2, 0.1, clamped to [0, 100]; the result is scored by the section 4.1
formula and the delta against the current score is reported. -/
def forecast (f : CreditFactors) (_months : ℕ) (rate : ℚ) (eps : ℚ) :
    PredictionInput × ℤ × ℤ :=
  let pf : PredictionInput :=
    { payment_history := clampFactor ((f.payment_history : ℚ) + rate * 0.8 + eps)
      credit_utilization := clampFactor ((f.credit_utilization : ℚ) - rate * 0.5 + eps)
      length_credit_history := clampFactor ((f.length_credit_history : ℚ) + rate * 0.3 + eps)
      credit_mix := clampFactor ((f.credit_mix : ℚ) + rate * 0.2 + eps)
      new_credit := clampFactor ((f.new_credit : ℚ) + rate * 0.1 + eps) }
  (pf, fico_scoreQ pf, fico_scoreQ pf - fico_score f)

/-- The full deterministic evaluation pipeline for one set of inputs:
score, category, color, displayed recommendations, narrative paragraph. -/
def evalPipeline (f : CreditFactors) : ℤ × String × String × List String × String :=
  (fico_score f, category (fico_score f), color (fico_score f),
    displayedRecommendations f, analysisParagraph f)

/-! ## Theorems -/

/-- `pyRound` rounds to a nearest integer: the result is within 1/2. -/
lemma abs_pyRound_sub_le (q : ℚ) : |((pyRound q : ℤ) : ℚ) - q| ≤ 1 / 2 := by
  have h0 : (⌊q⌋ : ℚ) ≤ q := Int.floor_le q
  have h1 : q < (⌊q⌋ : ℚ) + 1 := Int.lt_floor_add_one q
  unfold pyRound
  split_ifs with ha hb hc
  · rw [abs_le]; constructor <;> linarith
  · rw [not_lt] at ha; rw [abs_le]; push_cast; constructor <;> linarith
  · rw [not_lt] at ha hb; rw [abs_le]; constructor <;> linarith
  · rw [not_lt] at ha hb; rw [abs_le]; push_cast; constructor <;> linarith

/-- Claim C1: for factor inputs in [0,100], the live score equals
`round(300 + 550 * (p/100*0.35 + u/100*0.30 + l/100*0.15 + m/100*0.10 +
n/100*0.10))`, rounded to a nearest integer (within 1/2 of the exact
value). -/
theorem claim_C1 (f : CreditFactors) (h : InRange f) :
    fico_score f =
      pyRound (300 + 550 * ((f.payment_history : ℚ) / 100 * 0.35 +
        (f.credit_utilization : ℚ) / 100 * 0.30 +
        (f.length_credit_history : ℚ) / 100 * 0.15 +
        (f.credit_mix : ℚ) / 100 * 0.10 +
        (f.new_credit : ℚ) / 100 * 0.10)) ∧
    |(fico_score f : ℚ) - (300 + 550 * ((f.payment_history : ℚ) / 100 * 0.35 +
        (f.credit_utilization : ℚ) / 100 * 0.30 +
        (f.length_credit_history : ℚ) / 100 * 0.15 +
        (f.credit_mix : ℚ) / 100 * 0.10 +
        (f.new_credit : ℚ) / 100 * 0.10))| ≤ 1 / 2 := by
  have harg : 300 + weighted_score f * 550 =
      300 + 550 * ((f.payment_history : ℚ) / 100 * 0.35 +
        (f.credit_utilization : ℚ) / 100 * 0.30 +
        (f.length_credit_history : ℚ) / 100 * 0.15 +
        (f.credit_mix : ℚ) / 100 * 0.10 +
        (f.new_credit : ℚ) / 100 * 0.10) := by
    unfold weighted_score; ring
  constructor
  · unfold fico_score; rw [harg]
  · have habs := abs_pyRound_sub_le (300 + weighted_score f * 550)
    rw [harg] at habs
    unfold fico_score
    rw [harg]
    exact habs

/-- Claim C1 witness at the default slider values. -/
theorem claim_C1_witness :
    InRange ⟨85, 70, 65, 75, 60⟩ ∧
    (fico_score ⟨85, 70, 65, 75, 60⟩ =
      pyRound (300 + 550 * (((85 : ℕ) : ℚ) / 100 * 0.35 +
        ((70 : ℕ) : ℚ) / 100 * 0.30 + ((65 : ℕ) : ℚ) / 100 * 0.15 +
        ((75 : ℕ) : ℚ) / 100 * 0.10 + ((60 : ℕ) : ℚ) / 100 * 0.10)) ∧
     |(fico_score ⟨85, 70, 65, 75, 60⟩ : ℚ) -
        (300 + 550 * (((85 : ℕ) : ℚ) / 100 * 0.35 +
          ((70 : ℕ) : ℚ) / 100 * 0.30 + ((65 : ℕ) : ℚ) / 100 * 0.15 +
          ((75 : ℕ) : ℚ) / 100 * 0.10 + ((60 : ℕ) : ℚ) / 100 * 0.10))| ≤ 1 / 2) :=
  ⟨by decide, claim_C1 ⟨85, 70, 65, 75, 60⟩ (by decide)⟩

/-- Claim C2: for factor inputs in [0,100] the score lies in [300, 850];
all zeros give 300 and all hundreds give 850. -/
theorem claim_C2 (f : CreditFactors) (h : InRange f) :
    (300 ≤ fico_score f ∧ fico_score f ≤ 850) ∧
    fico_score ⟨0, 0, 0, 0, 0⟩ = 300 ∧
    fico_score ⟨100, 100, 100, 100, 100⟩ = 850 := by
  obtain ⟨h1, h2, h3, h4, h5⟩ := h
  refine ⟨?_, ?_, ?_⟩
  · have hN : 60000 ≤ scoreNumerator f ∧ scoreNumerator f ≤ 170000 := by
      unfold scoreNumerator; omega
    have hb : 300 ≤ fico_score_nat f ∧ fico_score_nat f ≤ 850 :=
      ⟨natRound200_lb hN.1, natRound200_ub hN.2⟩
    rw [fico_score_eq_nat]
    omega
  · rw [fico_score_eq_nat]; decide
  · rw [fico_score_eq_nat]; decide

/-- Claim C2 witness at the default slider values. -/
theorem claim_C2_witness :
    InRange ⟨85, 70, 65, 75, 60⟩ ∧
    ((300 ≤ fico_score ⟨85, 70, 65, 75, 60⟩ ∧ fico_score ⟨85, 70, 65, 75, 60⟩ ≤ 850) ∧
      fico_score ⟨0, 0, 0, 0, 0⟩ = 300 ∧
      fico_score ⟨100, 100, 100, 100, 100⟩ = 850) :=
  ⟨by decide, claim_C2 ⟨85, 70, 65, 75, 60⟩ (by decide)⟩

/-- Claim C5: the score is monotonically non-decreasing in each factor
separately, the other four held fixed, within [0,100]. -/
theorem claim_C5 (f : CreditFactors) (a b : ℕ) (hab : a ≤ b) (hb100 : b ≤ 100) :
    fico_score { f with payment_history := a } ≤ fico_score { f with payment_history := b } ∧
    fico_score { f with credit_utilization := a } ≤ fico_score { f with credit_utilization := b } ∧
    fico_score { f with length_credit_history := a } ≤ fico_score { f with length_credit_history := b } ∧
    fico_score { f with credit_mix := a } ≤ fico_score { f with credit_mix := b } ∧
    fico_score { f with new_credit := a } ≤ fico_score { f with new_credit := b } := by
  refine ⟨?_, ?_, ?_, ?_, ?_⟩ <;>
    · rw [fico_score_eq_nat, fico_score_eq_nat]
      refine Nat.cast_le.mpr (natRound200_mono ?_)
      unfold scoreNumerator
      dsimp only
      omega

/-- Claim C5 witness: raising one factor from 20 to 90. -/
theorem claim_C5_witness :
    20 ≤ 90 ∧ 90 ≤ 100 ∧
    (fico_score ⟨20, 50, 50, 50, 50⟩ ≤ fico_score ⟨90, 50, 50, 50, 50⟩ ∧
     fico_score ⟨50, 20, 50, 50, 50⟩ ≤ fico_score ⟨50, 90, 50, 50, 50⟩ ∧
     fico_score ⟨50, 50, 20, 50, 50⟩ ≤ fico_score ⟨50, 50, 90, 50, 50⟩ ∧
     fico_score ⟨50, 50, 50, 20, 50⟩ ≤ fico_score ⟨50, 50, 50, 90, 50⟩ ∧
     fico_score ⟨50, 50, 50, 50, 20⟩ ≤ fico_score ⟨50, 50, 50, 50, 90⟩) :=
  ⟨by decide, by decide, claim_C5 ⟨50, 50, 50, 50, 50⟩ 20 90 (by decide) (by decide)⟩

/-- Claim C7 as stated is false on the code: at the factors
(85, 70, 65, 75, 60) the weighted sum is 0.74 (not 0.7475) and the score
is 707 (not 711). -/
theorem claim_C7_counterexample :
    ¬(weighted_score ⟨85, 70, 65, 75, 60⟩ = 7475 / 10000 ∧
      fico_score ⟨85, 70, 65, 75, 60⟩ = 711 ∧
      category (fico_score ⟨85, 70, 65, 75, 60⟩) = "✅ Good") := by
  intro h
  have hs := h.2.1
  rw [fico_score_eq_nat] at hs
  exact absurd hs (by decide)

/-- Claim C7 (amended): for the input factors (85, 70, 65, 75, 60) the
weighted sum is 0.74, the score is `round(300 + 0.74 * 550) = 707`, and
the assigned category is Good. -/
theorem claim_C7 :
    weighted_score ⟨85, 70, 65, 75, 60⟩ = 74 / 100 ∧
    fico_score ⟨85, 70, 65, 75, 60⟩ = 707 ∧
    category (fico_score ⟨85, 70, 65, 75, 60⟩) = "✅ Good" := by
  have hs : fico_score ⟨85, 70, 65, 75, 60⟩ = 707 := by
    rw [fico_score_eq_nat]; decide
  refine ⟨?_, hs, ?_⟩
  · unfold weighted_score; norm_num
  · rw [hs]; decide

/-- Claim C3: on [300, 850] the classification is a total partition into
the five labeled buckets with cut points 580, 670, 740, 800, lower end
inclusive, upper end exclusive, last bucket open-ended: each label is
assigned exactly on its range. -/
theorem claim_C3 (s : ℤ) (hlo : 300 ≤ s) (hhi : s ≤ 850) :
    (category s = "❌ Poor" ↔ s < 580) ∧
    (category s = "⚠️ Fair" ↔ 580 ≤ s ∧ s < 670) ∧
    (category s = "✅ Good" ↔ 670 ≤ s ∧ s < 740) ∧
    (category s = "💎 Very Good" ↔ 740 ≤ s ∧ s < 800) ∧
    (category s = "🏆 Excellent" ↔ 800 ≤ s) := by
  unfold category
  split_ifs with ha hb hc hd <;>
    refine ⟨?_, ?_, ?_, ?_, ?_⟩ <;>
      constructor <;> intro hx <;>
        first
          | omega
          | rfl
          | (exact absurd hx (by decide))

/-- Claim C3 witness at score 700. -/
theorem claim_C3_witness :
    (300 : ℤ) ≤ 700 ∧ (700 : ℤ) ≤ 850 ∧
    ((category 700 = "❌ Poor" ↔ (700 : ℤ) < 580) ∧
     (category 700 = "⚠️ Fair" ↔ (580 : ℤ) ≤ 700 ∧ (700 : ℤ) < 670) ∧
     (category 700 = "✅ Good" ↔ (670 : ℤ) ≤ 700 ∧ (700 : ℤ) < 740) ∧
     (category 700 = "💎 Very Good" ↔ (740 : ℤ) ≤ 700 ∧ (700 : ℤ) < 800) ∧
     (category 700 = "🏆 Excellent" ↔ (800 : ℤ) ≤ 700)) :=
  ⟨by decide, by decide, claim_C3 700 (by decide) (by decide)⟩

/-- Claim C4: the recommendation list is exactly the messages of the five
rules whose conditions hold, in the fixed rule order, and the displayed
output falls back to the single affirmative message when none fire. -/
theorem claim_C4 (f : CreditFactors) :
    recommendations f = firedMessages f ∧
    displayedRecommendations f =
      (if firedMessages f = [] then [recMsgFallback] else firedMessages f) := by
  have h : recommendations f = firedMessages f := by
    unfold recommendations firedMessages recRules
    by_cases h1 : f.payment_history < 80 <;>
    by_cases h2 : f.credit_utilization > 30 <;>
    by_cases h3 : f.length_credit_history < 70 <;>
    by_cases h4 : f.credit_mix < 60 <;>
    by_cases h5 : f.new_credit < 60 <;>
    simp [h1, h2, h3, h4, h5]
  refine ⟨h, ?_⟩
  unfold displayedRecommendations
  rw [h]

/-- Claim C6: the session history is strictly append-only: after saving
each element of `fs` in order starting from the empty history, the
history is exactly the corresponding snapshots in order (hence has length
`fs.length` and no entry was removed or edited), and reading it for
display returns it unchanged. -/
theorem claim_C6 (fs : List CreditFactors) :
    saveAll fs = fs.map mkEntry ∧
    (saveAll fs).length = fs.length ∧
    readHistory (saveAll fs) = saveAll fs := by
  have key : ∀ (l : List CreditFactors) (acc : List HistoryEntry),
      l.foldl saveSimulation acc = acc ++ l.map mkEntry := by
    intro l
    induction l with
    | nil => intro acc; simp
    | cons x xs ih =>
        intro acc
        simp only [List.foldl_cons, List.map_cons, ih, saveSimulation]
        simp
  have h : saveAll fs = fs.map mkEntry := by
    unfold saveAll
    rw [key]
    simp
  exact ⟨h, by rw [h]; simp, rfl⟩

/-- Claim C8: the narrative paragraph is the space-joined concatenation
of exactly one score-tier sentence selected by the thresholds 800, 740,
670, 580 on the computed score, followed by the conditional sentences for
utilization > 50, paymentHistory < 70, lengthOfHistory < 50 and
newCredit > 80, each present exactly when its condition holds. -/
theorem claim_C8 (f : CreditFactors) :
    analysisParagraph f =
      String.intercalate " " (tierSentence (fico_score f) :: condSentences f) := by
  have h : analysis f = tierSentence (fico_score f) :: condSentences f := by
    unfold analysis tierSentence condSentences
    by_cases h1 : f.credit_utilization > 50 <;>
    by_cases h2 : f.payment_history < 70 <;>
    by_cases h3 : f.length_credit_history < 50 <;>
    by_cases h4 : f.new_credit > 80 <;>
    split_ifs <;>
    simp [h1, h2, h3, h4]
  unfold analysisParagraph
  rw [h]

/-- Claim C9 (modelled from the spec; the forecast is absent from
`src/scoreCheck.py`): for any factors, horizon, rate and shared offset in
[-2, 2], every predicted per-factor value is clamped into [0, 100], the
predicted score is the section 4.1 formula applied to the predicted
factors, and the reported delta is exactly predictedScore minus
currentScore. -/
theorem claim_C9 (f : CreditFactors) (months : ℕ) (rate eps : ℚ)
    (heps : -2 ≤ eps ∧ eps ≤ 2) :
    (0 ≤ (forecast f months rate eps).1.payment_history ∧
      (forecast f months rate eps).1.payment_history ≤ 100) ∧
    (0 ≤ (forecast f months rate eps).1.credit_utilization ∧
      (forecast f months rate eps).1.credit_utilization ≤ 100) ∧
    (0 ≤ (forecast f months rate eps).1.length_credit_history ∧
      (forecast f months rate eps).1.length_credit_history ≤ 100) ∧
    (0 ≤ (forecast f months rate eps).1.credit_mix ∧
      (forecast f months rate eps).1.credit_mix ≤ 100) ∧
    (0 ≤ (forecast f months rate eps).1.new_credit ∧
      (forecast f months rate eps).1.new_credit ≤ 100) ∧
    (forecast f months rate eps).2.1 = fico_scoreQ (forecast f months rate eps).1 ∧
    (forecast f months rate eps).2.2 =
      (forecast f months rate eps).2.1 - fico_score f := by
  have hcl : ∀ x : ℚ, 0 ≤ clampFactor x ∧ clampFactor x ≤ 100 := by
    intro x
    unfold clampFactor
    exact ⟨le_max_left 0 _, max_le (by norm_num) (min_le_left _ _)⟩
  exact ⟨hcl _, hcl _, hcl _, hcl _, hcl _, rfl, rfl⟩

/-- Claim C9 witness at the default factors, horizon 6, rate 10,
offset 1. -/
theorem claim_C9_witness :
    (-2 ≤ (1 : ℚ) ∧ (1 : ℚ) ≤ 2) ∧
    ((0 ≤ (forecast ⟨85, 70, 65, 75, 60⟩ 6 10 1).1.payment_history ∧
       (forecast ⟨85, 70, 65, 75, 60⟩ 6 10 1).1.payment_history ≤ 100) ∧
     (0 ≤ (forecast ⟨85, 70, 65, 75, 60⟩ 6 10 1).1.credit_utilization ∧
       (forecast ⟨85, 70, 65, 75, 60⟩ 6 10 1).1.credit_utilization ≤ 100) ∧
     (0 ≤ (forecast ⟨85, 70, 65, 75, 60⟩ 6 10 1).1.length_credit_history ∧
       (forecast ⟨85, 70, 65, 75, 60⟩ 6 10 1).1.length_credit_history ≤ 100) ∧
     (0 ≤ (forecast ⟨85, 70, 65, 75, 60⟩ 6 10 1).1.credit_mix ∧
       (forecast ⟨85, 70, 65, 75, 60⟩ 6 10 1).1.credit_mix ≤ 100) ∧
     (0 ≤ (forecast ⟨85, 70, 65, 75, 60⟩ 6 10 1).1.new_credit ∧
       (forecast ⟨85, 70, 65, 75, 60⟩ 6 10 1).1.new_credit ≤ 100) ∧
     (forecast ⟨85, 70, 65, 75, 60⟩ 6 10 1).2.1 =
       fico_scoreQ (forecast ⟨85, 70, 65, 75, 60⟩ 6 10 1).1 ∧
     (forecast ⟨85, 70, 65, 75, 60⟩ 6 10 1).2.2 =
       (forecast ⟨85, 70, 65, 75, 60⟩ 6 10 1).2.1 - fico_score ⟨85, 70, 65, 75, 60⟩) :=
  ⟨by norm_num, claim_C9 ⟨85, 70, 65, 75, 60⟩ 6 10 1 (by norm_num)⟩

/-- Claim C10: the evaluation pipeline is deterministic; identical factor
inputs produce identical score, category, color, recommendation list and
narrative paragraph. -/
theorem claim_C10 (f g : CreditFactors) (h : f = g) :
    evalPipeline f = evalPipeline g := by rw [h]

/-- Claim C10 witness at the default slider values. -/
theorem claim_C10_witness :
    evalPipeline ⟨85, 70, 65, 75, 60⟩ = evalPipeline ⟨85, 70, 65, 75, 60⟩ :=
  claim_C10 ⟨85, 70, 65, 75, 60⟩ ⟨85, 70, 65, 75, 60⟩ rfl

end ScoreCheck
